import Mathlib

/-!
Verification of the blesync scan-and-sync application (src/src/main.c)
against its natural-language specification.

The first part embeds the source file shallowly: the GAP event dispatcher
`blesync_gap_event`, the sync-create helper `blesync_sync_create`, the
extended-scan helper `blesync_ext_scan`, and the startup sequence of
`blesync_main_task_fn`.  Host-stack calls are represented by passing the
host as a function from the request record to a status code, and by
recording every issued request in an output list.  Console output is
recorded as a list of strings.

The second part models the Sync Session Manager state machine of the
specification (states Idle/Scanning/SyncPending/Synced/Lost, the
`sync_handle`/`last_error`/`stats` bookkeeping, the `start()` idempotency
guard, and range validation of `sync_timeout`).  That bookkeeping is not
present under src/: the dispatcher in main.c only logs and returns 0, so
those definitions are modelled from the specification text and are marked
as such in their doc comments.
-/

namespace BleSync

/-- GAP event kind for an extended-discovery report.  Value of
`BLE_GAP_EVENT_EXT_DISC` from the NimBLE host header `host/ble_gap.h`
(external collaborator, not under src/); only distinctness of the four
kind codes matters to the dispatcher. -/
def BLE_GAP_EVENT_EXT_DISC : Nat := 19

/-- GAP event kind for a periodic-sync establishment report
(`BLE_GAP_EVENT_PERIODIC_SYNC` in NimBLE). -/
def BLE_GAP_EVENT_PERIODIC_SYNC : Nat := 20

/-- GAP event kind for a periodic-advertising report
(`BLE_GAP_EVENT_PERIODIC_REPORT` in NimBLE). -/
def BLE_GAP_EVENT_PERIODIC_REPORT : Nat := 21

/-- GAP event kind for loss of an established periodic sync
(`BLE_GAP_EVENT_PERIODIC_SYNC_LOST` in NimBLE). -/
def BLE_GAP_EVENT_PERIODIC_SYNC_LOST : Nat := 22

/-- `BLE_ADDR_PUBLIC` from the NimBLE headers: the public address type. -/
def BLE_ADDR_PUBLIC : Nat := 0

/-- `BLE_GAP_SCAN_FAST_INTERVAL_MAX` from the NimBLE headers: the upper
interval of the stack's fast discovery preset, in 0.625 ms units. -/
def BLE_GAP_SCAN_FAST_INTERVAL_MAX : Nat := 0x0060

/-- `BLE_GAP_SCAN_FAST_WINDOW` from the NimBLE headers: the scan window of
the stack's fast discovery preset, in 0.625 ms units. -/
def BLE_GAP_SCAN_FAST_WINDOW : Nat := 0x0030

/-- `BLE_HCI_SCAN_FILT_NO_WL` from the NimBLE headers: scan filter policy
that applies no whitelist. -/
def BLE_HCI_SCAN_FILT_NO_WL : Nat := 0

/-- `ble_addr_t`: address type tag plus six address bytes. -/
structure BleAddr where
  typ : Nat
  val : List Nat
deriving Repr, DecidableEq

/-- Payload of a `BLE_GAP_EVENT_PERIODIC_SYNC` notification
(`event->periodic_sync` in main.c). -/
structure PeriodicSyncEvt where
  status : Nat
  sync_handle : Nat
  sid : Nat
  adv_phy : Nat
  per_adv_ival : Nat
  adv_clk_accuracy : Nat
  adv_addr : BleAddr
deriving Repr, DecidableEq

/-- Payload of a `BLE_GAP_EVENT_PERIODIC_SYNC_LOST` notification
(`event->periodic_sync_lost` in main.c). -/
structure PeriodicSyncLostEvt where
  reason : Nat
deriving Repr, DecidableEq

/-- `struct ble_gap_event`: the kind code together with the payloads the
dispatcher reads.  The C struct is a tagged union; modelling it as a
product is a safe over-approximation since each branch reads only the
member matching the tag. -/
structure BleGapEvent where
  type : Nat
  periodic_sync : PeriodicSyncEvt
  periodic_sync_lost : PeriodicSyncLostEvt
deriving Repr, DecidableEq

/-- The mutable process state visible to the application code of main.c:
its only writable globals are the main-task bookkeeping and the startup
semaphore token count.  The dispatcher must be shown not to touch it. -/
structure ProcState where
  sem_tokens : Nat
deriving Repr, DecidableEq

/-- Result of one dispatcher invocation: the status returned to the host,
the process state after the call, the console lines printed, and the
names of host-stack functions invoked from inside the handler. -/
structure GapEventResult where
  rc : Int
  st : ProcState
  log : List String
  host_calls : List String
deriving Repr, DecidableEq

/-- `print_addr` output as recorded in the console log; the helper
pretty-prints the six address bytes. -/
def addr_str (val : List Nat) : String :=
  String.intercalate ":" (val.reverse.map toString)

/-- `blesync_gap_event` from main.c: the switch over `event->type`.  Every
branch only prints and returns 0; the commented-out `ble_gap_disc_cancel`
call in the `BLE_GAP_EVENT_EXT_DISC` branch is absent, so no branch issues
a host call or writes a process variable. -/
def blesync_gap_event (st : ProcState) (event : BleGapEvent) : GapEventResult :=
  if event.type = BLE_GAP_EVENT_EXT_DISC then
    { rc := 0, st := st, log := [], host_calls := [] }
  else if event.type = BLE_GAP_EVENT_PERIODIC_SYNC then
    if event.periodic_sync.status ≠ 0 then
      { rc := 0, st := st,
        log := ["Periodic Sync Establishment Failed; status=" ++
                toString event.periodic_sync.status],
        host_calls := [] }
    else
      { rc := 0, st := st,
        log := ["Periodic Sync Established; sync_handle=" ++
                toString event.periodic_sync.sync_handle ++
                " sid=" ++ toString event.periodic_sync.sid ++
                " phy=" ++ toString event.periodic_sync.adv_phy ++
                " adv_interval=" ++ toString event.periodic_sync.per_adv_ival ++
                " ca=" ++ toString event.periodic_sync.adv_clk_accuracy ++
                " addr_type=" ++ toString event.periodic_sync.adv_addr.typ ++
                " addr=" ++ addr_str event.periodic_sync.adv_addr.val],
        host_calls := [] }
  else if event.type = BLE_GAP_EVENT_PERIODIC_REPORT then
    { rc := 0, st := st, log := ["BLE_GAP_EVENT_PERIODIC_REPORT"],
      host_calls := [] }
  else if event.type = BLE_GAP_EVENT_PERIODIC_SYNC_LOST then
    { rc := 0, st := st,
      log := ["Periodic Sync Lost, reason " ++
              toString event.periodic_sync_lost.reason],
      host_calls := [] }
  else
    { rc := 0, st := st,
      log := ["Event " ++ toString event.type ++ " not handled"],
      host_calls := [] }

/-- `struct ble_gap_periodic_sync_params` as filled in by
`blesync_sync_create`. -/
structure SyncCreateParams where
  skip : Nat
  sync_timeout : Nat
  reports_disabled : Bool
deriving Repr, DecidableEq

/-- One `ble_gap_periodic_adv_sync_create` request: peer address, the
advertising-set filter argument, and the sync parameters. -/
structure SyncCreateReq where
  addr : BleAddr
  adv_sid : Nat
  params : SyncCreateParams
deriving Repr, DecidableEq

/-- `blepadv_addr` from `blesync_sync_create`: the compiled-in target
descriptor, public address type, bytes 03:00:00:1e:bb:ba. -/
def blepadv_addr : BleAddr :=
  { typ := BLE_ADDR_PUBLIC, val := [0x03, 0x00, 0x00, 0x1e, 0xbb, 0xba] }

/-- `blesync_sync_create` from main.c: builds the fixed parameters
(skip 0, sync_timeout 0x4000, reports enabled), issues exactly one
`ble_gap_periodic_adv_sync_create` call against `blepadv_addr` with
advertising-set filter 0, logs the status and returns it.  The host stack
is passed in as a function from the request to its status code; the
returned list records every request issued. -/
def blesync_sync_create (host : SyncCreateReq → Int) :
    Int × List SyncCreateReq × List String :=
  let params : SyncCreateParams :=
    { skip := 0, sync_timeout := 0x4000, reports_disabled := false }
  let req : SyncCreateReq :=
    { addr := blepadv_addr, adv_sid := 0, params := params }
  let rc := host req
  (rc, [req],
   ["Sync to periodic advertising started, status " ++ toString rc])

/-- `struct ble_gap_ext_disc_params` as filled in by `blesync_ext_scan`. -/
structure ExtDiscParams where
  itvl : Nat
  passive : Bool
  window : Nat
deriving Repr, DecidableEq

/-- One `ble_gap_ext_disc` request with the arguments passed in main.c:
own address type, duration, period, duplicate filtering, filter policy,
limited flag, and the optional uncoded/coded PHY parameter blocks. -/
structure ExtScanReq where
  own_addr_type : Nat
  duration : Nat
  period : Nat
  filter_duplicates : Nat
  filter_policy : Nat
  limited : Nat
  uncoded_params : Option ExtDiscParams
  coded_params : Option ExtDiscParams
deriving Repr, DecidableEq

/-- `blesync_ext_scan` from main.c: builds the fixed fast-preset passive
scan parameters, issues exactly one `ble_gap_ext_disc` call (public own
address, no duration or period limit, no duplicate filtering beyond host
defaults, no whitelist, uncoded PHY only), logs the status and returns
it. -/
def blesync_ext_scan (host : ExtScanReq → Int) :
    Int × List ExtScanReq × List String :=
  let params : ExtDiscParams :=
    { itvl := BLE_GAP_SCAN_FAST_INTERVAL_MAX, passive := true,
      window := BLE_GAP_SCAN_FAST_WINDOW }
  let req : ExtScanReq :=
    { own_addr_type := BLE_ADDR_PUBLIC, duration := 0, period := 0,
      filter_duplicates := 0, filter_policy := BLE_HCI_SCAN_FILT_NO_WL,
      limited := 0, uncoded_params := some params, coded_params := none }
  let rc := host req
  (rc, [req], ["Extended scan started, status " ++ toString rc])

/-- Startup portion of `blesync_main_task_fn` from main.c: after the
banner and semaphore initialization it calls `blesync_sync_create` and
then `blesync_ext_scan` (each asserted to succeed in the source).  The
result collects both status codes and every host request issued during
startup. -/
def blesync_main_task_startup (hostSync : SyncCreateReq → Int)
    (hostScan : ExtScanReq → Int) :
    Int × Int × List SyncCreateReq × List ExtScanReq :=
  let sync := blesync_sync_create hostSync
  let scan := blesync_ext_scan hostScan
  (sync.1, scan.1, sync.2.1, scan.2.1)

/-- `BLE_HS_EALREADY` from the NimBLE headers: the "operation already in
progress" status, used by the modelled idempotency guard as its "already
active" status. -/
def BLE_HS_EALREADY : Int := 2

/-- `BLE_HS_EINVAL` from the NimBLE headers: the invalid-parameter
status. -/
def BLE_HS_EINVAL : Int := 3

/-- Modelled from the spec: parameter-range validation of the sync-create
operation for an adjustable `sync_timeout` (spec sections 3, 7 and 8).
src/ only contains the fixed-parameter caller `blesync_sync_create`
(sync_timeout hardcoded to 0x4000); the validating, parameterized form of
the operation is not under src/.  Per the spec, a `sync_timeout` outside
the protocol range [0x000A, 0x4000] is detected before any call to the
host stack is issued and the request is rejected with an invalid-parameter
status; otherwise the request (with skip 0 and reports enabled, against
the compiled-in target) is issued and the host's status is returned. -/
def create_periodic_sync_checked (sync_timeout : Nat)
    (host : SyncCreateReq → Int) : Int × List SyncCreateReq :=
  if sync_timeout < 0x000A ∨ 0x4000 < sync_timeout then
    (BLE_HS_EINVAL, [])
  else
    let req : SyncCreateReq :=
      { addr := blepadv_addr, adv_sid := 0,
        params := { skip := 0, sync_timeout := sync_timeout,
                    reports_disabled := false } }
    (host req, [req])

/-- States of the Sync Session Manager as enumerated in spec section
4.3. -/
inductive SessionState where
  | Idle
  | Scanning
  | SyncPending
  | Synced
  | Lost
deriving Repr, DecidableEq

/-- The Sync Session entity of spec section 3: state, the optional
host-assigned sync handle, the last recorded error code, and the report
counter `stats.reports_received`. -/
structure SyncSession where
  state : SessionState
  sync_handle : Option Nat
  last_error : Option Nat
  reports_received : Nat
deriving Repr, DecidableEq

/-- The session at manager initialization: state `Idle`, no handle, no
error, zero reports. -/
def initSession : SyncSession :=
  { state := .Idle, sync_handle := none, last_error := none,
    reports_received := 0 }

/-- Modelled from the spec: the Sync Session Manager's `start()` (spec
sections 4.3 and 8).  The session bookkeeping is not under src/: the
literal `blesync_main_task_fn` issues the sync-create and extended-scan
requests exactly once with no session record.  Per the spec, a `start()`
while the state is `Scanning`, `SyncPending` or `Synced` is rejected with
an "already active" status, leaves the state unchanged and issues no host
request; otherwise the sync-create and extended-scan requests are issued
(recorded here by name), failure of either call leaves the session in
`Idle`, and on success the session awaits establishment in
`SyncPending`. -/
def session_start (s : SyncSession) (syncRc scanRc : Int) :
    Int × SyncSession × List String :=
  if s.state = .Scanning ∨ s.state = .SyncPending ∨ s.state = .Synced then
    (BLE_HS_EALREADY, s, [])
  else if syncRc ≠ 0 then
    (syncRc, { s with state := .Idle }, ["create_periodic_sync"])
  else if scanRc ≠ 0 then
    (scanRc, { s with state := .Idle },
     ["create_periodic_sync", "begin_extended_scan"])
  else
    (0, { s with state := .SyncPending },
     ["create_periodic_sync", "begin_extended_scan"])

/-- Modelled from the spec: the `SyncPending --on_sync_established-->
Synced` transition (spec sections 4.3 and 8).  In `SyncPending` the
session records the handle, clears `last_error` and becomes `Synced`; in
any other state the notification is a protocol inconsistency that is
logged and dropped. -/
def on_sync_established (s : SyncSession) (handle : Nat) :
    SyncSession × List String :=
  if s.state = .SyncPending then
    ({ s with state := .Synced, sync_handle := some handle
              last_error := none },
     ["sync established, handle " ++ toString handle])
  else
    (s, ["out-of-state sync-established dropped"])

/-- Modelled from the spec: the `SyncPending --on_sync_failed--> Idle`
transition (spec sections 4.3 and 8).  In `SyncPending` the failure code
is recorded in `last_error`, `sync_handle` is left untouched (it is
`None` throughout `SyncPending`) and the session returns to `Idle`; in
any other state the notification is logged and dropped. -/
def on_sync_failed (s : SyncSession) (code : Nat) :
    SyncSession × List String :=
  if s.state = .SyncPending then
    ({ s with state := .Idle, last_error := some code },
     ["sync establishment failed, status " ++ toString code])
  else
    (s, ["out-of-state sync-failed dropped"])

/-- Modelled from the spec: the `Synced --on_periodic_report--> Synced`
self-loop (spec sections 4.3 and 8).  In `Synced` the report counter is
incremented and nothing else changes; in any other state the report is
logged and dropped, never fatal. -/
def on_periodic_report (s : SyncSession) : SyncSession × List String :=
  if s.state = .Synced then
    ({ s with reports_received := s.reports_received + 1 },
     ["periodic report received"])
  else
    (s, ["out-of-state periodic report dropped"])

/-- Modelled from the spec: the `Synced --on_sync_lost--> Lost` transition
(spec sections 4.3 and 8).  In `Synced` the handle is cleared, the reason
code is recorded in `last_error` and the session becomes `Lost`; in any
other state the notification is logged and dropped. -/
def on_sync_lost (s : SyncSession) (reason : Nat) :
    SyncSession × List String :=
  if s.state = .Synced then
    ({ s with state := .Lost, sync_handle := none
              last_error := some reason },
     ["sync lost, reason " ++ toString reason])
  else
    (s, ["out-of-state sync-lost dropped"])

/-- Modelled from the spec: event routing into the Sync Session Manager.
The case structure mirrors the switch of `blesync_gap_event` in main.c
(periodic-sync notifications branch on the establishment status exactly
as the source does); the session transitions invoked per case are the
spec-modelled ones above.  Unhandled kinds and extended-discovery reports
leave the session untouched. -/
def session_dispatch (s : SyncSession) (event : BleGapEvent) :
    SyncSession × List String :=
  if event.type = BLE_GAP_EVENT_EXT_DISC then
    (s, [])
  else if event.type = BLE_GAP_EVENT_PERIODIC_SYNC then
    if event.periodic_sync.status ≠ 0 then
      on_sync_failed s event.periodic_sync.status
    else
      on_sync_established s event.periodic_sync.sync_handle
  else if event.type = BLE_GAP_EVENT_PERIODIC_REPORT then
    on_periodic_report s
  else if event.type = BLE_GAP_EVENT_PERIODIC_SYNC_LOST then
    on_sync_lost s event.periodic_sync_lost.reason
  else
    (s, ["Event " ++ toString event.type ++ " not handled"])

/-- Sessions reachable from initialization by any sequence of `start()`
calls (with arbitrary host status codes) and dispatched host events. -/
inductive Reachable : SyncSession → Prop where
  | init : Reachable initSession
  | start (s : SyncSession) (syncRc scanRc : Int) (h : Reachable s) :
      Reachable (session_start s syncRc scanRc).2.1
  | step (s : SyncSession) (e : BleGapEvent) (h : Reachable s) :
      Reachable (session_dispatch s e).1

/-- `N` consecutive `on_periodic_report` deliveries. -/
def reportN (s : SyncSession) : Nat → SyncSession
  | 0 => s
  | n + 1 => (on_periodic_report (reportN s n)).1

/-- The session right after a successful `start()` from initialization:
both host calls returned 0, so the session awaits establishment. -/
def pendingSession : SyncSession := (session_start initSession 0 0).2.1

/-- The spec section 8 scenario notification: periodic-sync established
with handle 7, sid 1, phy 1, interval 800, clock accuracy 0, public
address. -/
def scenarioSyncEvent : BleGapEvent :=
  { type := BLE_GAP_EVENT_PERIODIC_SYNC,
    periodic_sync :=
      { status := 0, sync_handle := 7, sid := 1, adv_phy := 1,
        per_adv_ival := 800, adv_clk_accuracy := 0,
        adv_addr := blepadv_addr },
    periodic_sync_lost := { reason := 0 } }

/-- A periodic-sync notification carrying a non-zero establishment
status. -/
def failedSyncEvent : BleGapEvent :=
  { type := BLE_GAP_EVENT_PERIODIC_SYNC,
    periodic_sync :=
      { status := 5, sync_handle := 0, sid := 0, adv_phy := 0,
        per_adv_ival := 0, adv_clk_accuracy := 0,
        adv_addr := blepadv_addr },
    periodic_sync_lost := { reason := 0 } }

/-- An event of a kind (5) the dispatcher does not handle. -/
def unhandledEvent : BleGapEvent :=
  { type := 5,
    periodic_sync :=
      { status := 0, sync_handle := 0, sid := 0, adv_phy := 0,
        per_adv_ival := 0, adv_clk_accuracy := 0,
        adv_addr := blepadv_addr },
    periodic_sync_lost := { reason := 0 } }

/-- The session after the scenario establishment: state `Synced`. -/
def syncedSession : SyncSession := (on_sync_established pendingSession 7).1

/-- Every reachable session either has no sync handle or is in state
`Synced`: the handle is assigned only by the establishment transition and
cleared by every transition that leaves `Synced`. -/
theorem handle_inv (s : SyncSession) (h : Reachable s) :
    s.sync_handle = none ∨ s.state = SessionState.Synced := by
  induction h with
  | init => exact Or.inl rfl
  | start t syncRc scanRc _ ih =>
      simp only [session_start]
      rcases ih with h1 | h1
      · split
        · exact Or.inl h1
        · split
          · exact Or.inl h1
          · split
            · exact Or.inl h1
            · exact Or.inl h1
      · split
        · exact Or.inr h1
        · simp_all
  | step t e _ ih =>
      simp only [session_dispatch, on_sync_established, on_sync_failed,
                 on_periodic_report, on_sync_lost]
      rcases ih with h1 | h1 <;>
        repeat' split
      all_goals simp_all

/-- Claim C1: in every reachable session state, `sync_handle` is `Some`
only while the state is `Synced`, and every transition out of `Synced`
(in particular `on_sync_lost`) clears `sync_handle` to `None`. -/
theorem c1_sync_handle_invariant (s : SyncSession) (h : Reachable s) :
    (s.sync_handle.isSome → s.state = SessionState.Synced) ∧
    (s.state = SessionState.Synced → ∀ reason : Nat,
      (on_sync_lost s reason).1.sync_handle = none ∧
      (on_sync_lost s reason).1.state = SessionState.Lost) := by
  constructor
  · intro hs
    rcases handle_inv s h with h1 | h1
    · rw [h1] at hs; simp at hs
    · exact h1
  · intro hs reason
    simp [on_sync_lost, hs]

/-- Witness for C1 at the initial session. -/
theorem c1_witness :
    (initSession.sync_handle.isSome → initSession.state = SessionState.Synced) ∧
    (initSession.state = SessionState.Synced → ∀ reason : Nat,
      (on_sync_lost initSession reason).1.sync_handle = none ∧
      (on_sync_lost initSession reason).1.state = SessionState.Lost) :=
  c1_sync_handle_invariant initSession Reachable.init

/-- Claim C2: from `SyncPending`, a periodic-sync notification with
status 0 and handle `h` moves the session to `Synced` with
`sync_handle = some h` and `last_error = none`. -/
theorem c2_established_transition (s : SyncSession) (e : BleGapEvent)
    (hst : s.state = SessionState.SyncPending)
    (hty : e.type = BLE_GAP_EVENT_PERIODIC_SYNC)
    (hok : e.periodic_sync.status = 0) :
    (session_dispatch s e).1.state = SessionState.Synced ∧
    (session_dispatch s e).1.sync_handle = some e.periodic_sync.sync_handle ∧
    (session_dispatch s e).1.last_error = none := by
  simp [session_dispatch, hty, hok, on_sync_established, hst,
        BLE_GAP_EVENT_PERIODIC_SYNC, BLE_GAP_EVENT_EXT_DISC]

/-- Witness for C2: the spec section 8 scenario, establishment with
handle 7 from the post-`start()` session, ends `Synced` with
`sync_handle = 7`. -/
theorem c2_witness :
    pendingSession.state = SessionState.SyncPending ∧
    scenarioSyncEvent.type = BLE_GAP_EVENT_PERIODIC_SYNC ∧
    scenarioSyncEvent.periodic_sync.status = 0 ∧
    (session_dispatch pendingSession scenarioSyncEvent).1.state =
      SessionState.Synced ∧
    (session_dispatch pendingSession scenarioSyncEvent).1.sync_handle =
      some 7 ∧
    (session_dispatch pendingSession scenarioSyncEvent).1.last_error =
      none := by
  have h := c2_established_transition pendingSession scenarioSyncEvent
    (by decide) (by decide) (by decide)
  exact ⟨by decide, by decide, by decide, h.1, h.2.1, h.2.2⟩

/-- Claim C3: from a reachable `SyncPending` session, a periodic-sync
notification with non-zero status moves the session to `Idle` with
`sync_handle = none` and `last_error = some code`. -/
theorem c3_failed_transition (s : SyncSession) (e : BleGapEvent)
    (hr : Reachable s)
    (hst : s.state = SessionState.SyncPending)
    (hty : e.type = BLE_GAP_EVENT_PERIODIC_SYNC)
    (hbad : e.periodic_sync.status ≠ 0) :
    (session_dispatch s e).1.state = SessionState.Idle ∧
    (session_dispatch s e).1.sync_handle = none ∧
    (session_dispatch s e).1.last_error = some e.periodic_sync.status := by
  have hnone : s.sync_handle = none := by
    rcases handle_inv s hr with h1 | h1
    · exact h1
    · rw [hst] at h1; simp at h1
  simp [session_dispatch, hty, hbad, on_sync_failed, hst, hnone,
        BLE_GAP_EVENT_PERIODIC_SYNC, BLE_GAP_EVENT_EXT_DISC]

/-- Witness for C3: a failed establishment (status 5) from the
post-`start()` session returns to `Idle` recording the failure. -/
theorem c3_witness :
    pendingSession.state = SessionState.SyncPending ∧
    failedSyncEvent.type = BLE_GAP_EVENT_PERIODIC_SYNC ∧
    failedSyncEvent.periodic_sync.status ≠ 0 ∧
    (session_dispatch pendingSession failedSyncEvent).1.state =
      SessionState.Idle ∧
    (session_dispatch pendingSession failedSyncEvent).1.sync_handle =
      none ∧
    (session_dispatch pendingSession failedSyncEvent).1.last_error =
      some failedSyncEvent.periodic_sync.status := by
  have h := c3_failed_transition pendingSession failedSyncEvent
    (Reachable.start initSession 0 0 Reachable.init)
    (by decide) (by decide) (by decide)
  exact ⟨by decide, by decide, by decide, h.1, h.2.1, h.2.2⟩

/-- Claim C4: `start()` in state `Scanning`, `SyncPending` or `Synced`
is a no-op: it returns the "already active" status, leaves the session
unchanged and issues no host request. -/
theorem c4_start_idempotent (s : SyncSession) (syncRc scanRc : Int)
    (h : s.state = SessionState.Scanning ∨
         s.state = SessionState.SyncPending ∨
         s.state = SessionState.Synced) :
    session_start s syncRc scanRc = (BLE_HS_EALREADY, s, []) := by
  simp [session_start, h]

/-- Witness for C4 at the post-`start()` (`SyncPending`) session. -/
theorem c4_witness :
    (pendingSession.state = SessionState.Scanning ∨
     pendingSession.state = SessionState.SyncPending ∨
     pendingSession.state = SessionState.Synced) ∧
    session_start pendingSession 0 0 = (BLE_HS_EALREADY, pendingSession, []) :=
  ⟨Or.inr (Or.inl (by decide)),
   c4_start_idempotent pendingSession 0 0 (Or.inr (Or.inl (by decide)))⟩

/-- Claim C5: `N` consecutive periodic reports while `Synced` increase
`stats.reports_received` by exactly `N` and never change the state, and a
periodic report while `Idle` leaves the session unchanged and is logged,
not fatal. -/
theorem c5_report_counting (s t : SyncSession) (N : Nat)
    (hs : s.state = SessionState.Synced)
    (ht : t.state = SessionState.Idle) :
    (reportN s N).state = SessionState.Synced ∧
    (reportN s N).reports_received = s.reports_received + N ∧
    (on_periodic_report t).1 = t ∧
    (on_periodic_report t).2 ≠ [] := by
  have main : ∀ n : Nat, (reportN s n).state = SessionState.Synced ∧
      (reportN s n).reports_received = s.reports_received + n := by
    intro n
    induction n with
    | zero => exact ⟨hs, rfl⟩
    | succ k ih =>
        rcases ih with ⟨h1, h2⟩
        constructor
        · simp [reportN, on_periodic_report, h1]
        · simp [reportN, on_periodic_report, h1, h2, Nat.add_assoc]
  refine ⟨(main N).1, (main N).2, ?_, ?_⟩
  · simp [on_periodic_report, ht]
  · simp [on_periodic_report, ht]

/-- Witness for C5: three reports on the established session count to
three; a report on the initial (`Idle`) session changes nothing. -/
theorem c5_witness :
    syncedSession.state = SessionState.Synced ∧
    initSession.state = SessionState.Idle ∧
    (reportN syncedSession 3).state = SessionState.Synced ∧
    (reportN syncedSession 3).reports_received =
      syncedSession.reports_received + 3 ∧
    (on_periodic_report initSession).1 = initSession ∧
    (on_periodic_report initSession).2 ≠ [] := by
  have h := c5_report_counting syncedSession initSession 3
    (by decide) (by decide)
  exact ⟨by decide, by decide, h.1, h.2.1, h.2.2.1, h.2.2.2⟩

/-- Claim C6: for every event whose kind is none of the four handled
kinds, `blesync_gap_event` falls through to the default branch, logs the
event and returns the success status 0. -/
theorem c6_unhandled_default (st : ProcState) (e : BleGapEvent)
    (h1 : e.type ≠ BLE_GAP_EVENT_EXT_DISC)
    (h2 : e.type ≠ BLE_GAP_EVENT_PERIODIC_SYNC)
    (h3 : e.type ≠ BLE_GAP_EVENT_PERIODIC_REPORT)
    (h4 : e.type ≠ BLE_GAP_EVENT_PERIODIC_SYNC_LOST) :
    blesync_gap_event st e =
      { rc := 0, st := st,
        log := ["Event " ++ toString e.type ++ " not handled"],
        host_calls := [] } := by
  simp [blesync_gap_event, h1, h2, h3, h4]

/-- Witness for C6 at an event of kind 5. -/
theorem c6_witness :
    unhandledEvent.type ≠ BLE_GAP_EVENT_EXT_DISC ∧
    unhandledEvent.type ≠ BLE_GAP_EVENT_PERIODIC_SYNC ∧
    unhandledEvent.type ≠ BLE_GAP_EVENT_PERIODIC_REPORT ∧
    unhandledEvent.type ≠ BLE_GAP_EVENT_PERIODIC_SYNC_LOST ∧
    blesync_gap_event { sem_tokens := 0 } unhandledEvent =
      { rc := 0, st := { sem_tokens := 0 },
        log := ["Event " ++ toString unhandledEvent.type ++ " not handled"],
        host_calls := [] } :=
  ⟨by decide, by decide, by decide, by decide,
   c6_unhandled_default { sem_tokens := 0 } unhandledEvent
     (by decide) (by decide) (by decide) (by decide)⟩

/-- Claim C7: a `sync_timeout` outside the protocol range
[0x000A, 0x4000] makes the sync-create operation reject the request with
a non-zero status and issue no request to the host stack. -/
theorem c7_timeout_range_rejected (t : Nat) (host : SyncCreateReq → Int)
    (h : t < 0x000A ∨ 0x4000 < t) :
    (create_periodic_sync_checked t host).1 ≠ 0 ∧
    (create_periodic_sync_checked t host).2 = [] := by
  simp [create_periodic_sync_checked, h, BLE_HS_EINVAL]

/-- Witness for C7 at the spec scenario value 0x5000. -/
theorem c7_witness :
    ((0x5000 : Nat) < 0x000A ∨ (0x4000 : Nat) < 0x5000) ∧
    (create_periodic_sync_checked 0x5000 (fun _ => 0)).1 ≠ 0 ∧
    (create_periodic_sync_checked 0x5000 (fun _ => 0)).2 = [] :=
  ⟨Or.inr (by norm_num),
   c7_timeout_range_rejected 0x5000 (fun _ => 0) (Or.inr (by norm_num))⟩

/-- Claim C8: the sync-create request issued at manager startup is
exactly one request with skip 0, sync_timeout 0x4000, reports enabled,
advertising-set filter 0, against the public address
03:00:00:1e:bb:ba. -/
theorem c8_startup_sync_request (hostSync : SyncCreateReq → Int)
    (hostScan : ExtScanReq → Int) :
    (blesync_main_task_startup hostSync hostScan).2.2.1 =
      [{ addr := { typ := BLE_ADDR_PUBLIC,
                   val := [0x03, 0x00, 0x00, 0x1e, 0xbb, 0xba] },
         adv_sid := 0,
         params := { skip := 0, sync_timeout := 0x4000,
                     reports_disabled := false } }] := rfl

/-- Claim C9: the extended-scan request issued by `blesync_ext_scan` is
exactly one passive request at the stack's fast discovery preset with no
whitelist filter, and the function returns the host's status code for
that request. -/
theorem c9_ext_scan_params (host : ExtScanReq → Int) :
    (blesync_ext_scan host).2.1 =
      [{ own_addr_type := BLE_ADDR_PUBLIC, duration := 0, period := 0,
         filter_duplicates := 0, filter_policy := BLE_HCI_SCAN_FILT_NO_WL,
         limited := 0,
         uncoded_params := some { itvl := BLE_GAP_SCAN_FAST_INTERVAL_MAX,
                                  passive := true,
                                  window := BLE_GAP_SCAN_FAST_WINDOW },
         coded_params := none }] ∧
    (blesync_ext_scan host).1 =
      host { own_addr_type := BLE_ADDR_PUBLIC, duration := 0, period := 0,
             filter_duplicates := 0, filter_policy := BLE_HCI_SCAN_FILT_NO_WL,
             limited := 0,
             uncoded_params := some { itvl := BLE_GAP_SCAN_FAST_INTERVAL_MAX,
                                      passive := true,
                                      window := BLE_GAP_SCAN_FAST_WINDOW },
             coded_params := none } :=
  ⟨rfl, rfl⟩

/-- Claim C10: for every event, handled or not, `blesync_gap_event`
returns status 0, leaves the process state untouched and invokes no
host-stack function; in particular the extended-discovery branch does not
cancel scanning. -/
theorem c10_dispatcher_frame (st : ProcState) (e : BleGapEvent) :
    (blesync_gap_event st e).rc = 0 ∧
    (blesync_gap_event st e).st = st ∧
    (blesync_gap_event st e).host_calls = [] := by
  unfold blesync_gap_event
  repeat' split
  all_goals exact ⟨rfl, rfl, rfl⟩

end BleSync
